import Mathlib

/-!
Shallow embedding of the course-registration system
(`src/student.h`, `src/course_registration.cpp`).

Modelling conventions:
* `std::map<std::string, CourseInfo>` is embedded as a lookup function
  `String → Option CourseInfo`; `std::set<std::string>` as `Finset String`;
  `std::vector<std::string>` as `List String`.
* `time_t` values and the current time (`time(nullptr)`) are `Int` parameters.
* C++ `float` CGPA values are embedded as `ℚ`: the thresholds 9.0, 7.0, 5.0
  are exactly representable floats and float comparison agrees with the
  rational order on represented values.
* C++ exceptions are explicit: a method that can throw returns a `CppResult`
  carrying either a returned value or a thrown error, together with the
  object state at that moment (a throw happening after a mutation keeps the
  mutation, as in C++).
* The comparison `enrolledStudents.size() >= maxCapacity` compares a
  `size_t` with an `int`: the `int` is converted to the 64-bit unsigned
  `size_t`, i.e. taken modulo 2^64.
* `Student`'s member function bodies (a `student.cpp`) are not part of the
  repository sources; the ones the claims need (`enrollInCourse`,
  `getAcademicStanding`) are modelled from the spec, as marked on their
  doc comments.
-/

namespace CourseReg

/-- The C++ standard-exception kinds thrown by the code:
`std::invalid_argument`, `std::out_of_range`, `std::runtime_error`. -/
inductive CRError where
  | invalidArgument
  | outOfRange
  | runtimeError
deriving DecidableEq

/-- `AcademicStanding` from `src/student.h` lines 24-29. -/
inductive AcademicStanding where
  | EXCELLENT
  | GOOD
  | SATISFACTORY
  | PROBATION
deriving DecidableEq

/-- `RegistrationStatus` from `src/course_registration.cpp` lines 29-36. -/
inductive RegistrationStatus where
  | SUCCESS
  | COURSE_FULL
  | PREREQ_NOT_MET
  | TIME_CONFLICT
  | ALREADY_ENROLLED
  | REGISTRATION_CLOSED
deriving DecidableEq

/-- The `Student` data of `src/student.h` lines 38-46. -/
structure Student where
  studentId : String
  name : String
  department : String
  cgpa : ℚ
  semester : Int
  enrolledCourses : List String
deriving DecidableEq

/-- Modelled from the spec: the body of `Student::enrollInCourse` (a
`student.cpp`) is not in the repository sources, only its declaration in
`src/student.h` lines 66-74. Per the spec (§4.1): returns `false` if
`courseCode` is already present in `enrolledCourses`; fails with a
RuntimeError condition if `enrolledCourses` has reached a maximum course
limit (an implementer-chosen configuration constant with no value fixed by
the spec, here the parameter `maxCourseLimit`); otherwise appends
`courseCode` and returns `true`. -/
def Student.enrollInCourse (s : Student) (maxCourseLimit : Nat) (courseCode : String) :
    Except CRError (Bool × Student) :=
  if courseCode ∈ s.enrolledCourses then
    .ok (false, s)
  else if maxCourseLimit ≤ s.enrolledCourses.length then
    .error .runtimeError
  else
    .ok (true, ⟨s.studentId, s.name, s.department, s.cgpa, s.semester,
      s.enrolledCourses ++ [courseCode]⟩)

/-- Modelled from the spec: the body of `Student::getAcademicStanding` (a
`student.cpp`) is not in the repository sources, only its declaration in
`src/student.h` lines 86-91 and the tier documentation on the
`AcademicStanding` enum. Per the spec (§4.1): EXCELLENT if cgpa ≥ 9.0,
GOOD if 7.0 ≤ cgpa < 9.0, SATISFACTORY if 5.0 ≤ cgpa < 7.0, PROBATION if
cgpa < 5.0. -/
def Student.getAcademicStanding (s : Student) : AcademicStanding :=
  if 9 ≤ s.cgpa then .EXCELLENT
  else if 7 ≤ s.cgpa then .GOOD
  else if 5 ≤ s.cgpa then .SATISFACTORY
  else .PROBATION

/-- `CourseRegistration::CourseInfo` from `src/course_registration.cpp`
lines 50-56. `maxCapacity` is a C++ `int`, embedded as `Int`. -/
structure CourseInfo where
  courseName : String
  maxCapacity : Int
  prerequisites : Finset String
  enrolledStudents : Finset String
  registrationDeadline : Int
deriving DecidableEq

/-- Result of a C++ method call on a stateful object: either a returned
value or a thrown error, paired with the object state at that point. -/
inductive CppResult (σ : Type) (α : Type) where
  | ok : α → σ → CppResult σ α
  | thrown : CRError → σ → CppResult σ α

/-- The state component of a call result (the object as the caller sees it
afterwards, whether the call returned or threw). -/
def CppResult.state {σ α : Type} : CppResult σ α → σ
  | .ok _ s => s
  | .thrown _ s => s

/-- The registration ledger: the `courses` map of
`src/course_registration.cpp` line 58. -/
structure CourseRegistration where
  courses : String → Option CourseInfo

/-- The C++ comparison `enrolledStudents.size() >= maxCapacity`
(`src/course_registration.cpp` line 188 and line 245): `size()` is a
`size_t`, so the `int` capacity is converted to a 64-bit unsigned value,
i.e. reduced modulo 2^64, before the comparison. -/
def sizeGeCap (size : Nat) (cap : Int) : Bool :=
  decide ((cap % ((2 : Int) ^ 64)).toNat ≤ size)

/-- `CourseRegistration::addCourse`, `src/course_registration.cpp`
lines 145-165. -/
def CourseRegistration.addCourse (reg : CourseRegistration) (courseCode courseName : String)
    (capacity : Int) (prerequisites : Finset String) (deadline : Int) :
    CppResult CourseRegistration Unit :=
  if (reg.courses courseCode).isSome then
    .thrown .invalidArgument reg
  else if capacity < 0 then
    .thrown .outOfRange reg
  else
    .ok () ⟨Function.update reg.courses courseCode
      (some ⟨courseName, capacity, prerequisites, ∅, deadline⟩)⟩

/-- `CourseRegistration::validatePrerequisites`, `src/course_registration.cpp`
lines 203-220: every prerequisite of the course must occur in the student's
`enrolledCourses`; unknown course codes give `false`. -/
def CourseRegistration.validatePrerequisites (reg : CourseRegistration) (student : Student)
    (courseCode : String) : Bool :=
  match reg.courses courseCode with
  | none => false
  | some course => decide (∀ p ∈ course.prerequisites, p ∈ student.enrolledCourses)

/-- `CourseRegistration::registerStudent`, `src/course_registration.cpp`
lines 167-201. `now` stands for `time(nullptr)`; `maxCourseLimit` is the
student-side enrollment limit (see `Student.enrollInCourse`). The state is
the pair of the ledger and the (by-reference) student. In the final branch
the course-side insertion happens before `enrollInCourse` is called, so a
student-side throw still keeps the inserted ID, as in the C++ source. -/
def CourseRegistration.registerStudent (reg : CourseRegistration) (maxCourseLimit : Nat)
    (now : Int) (student : Student) (courseCode : String) :
    CppResult (CourseRegistration × Student) RegistrationStatus :=
  match reg.courses courseCode with
  | none => .thrown .invalidArgument (reg, student)
  | some course =>
    if now > course.registrationDeadline then
      .ok .REGISTRATION_CLOSED (reg, student)
    else if student.studentId ∈ course.enrolledStudents then
      .ok .ALREADY_ENROLLED (reg, student)
    else if sizeGeCap course.enrolledStudents.card course.maxCapacity then
      .ok .COURSE_FULL (reg, student)
    else if reg.validatePrerequisites student courseCode = false then
      .ok .PREREQ_NOT_MET (reg, student)
    else
      let course' : CourseInfo := ⟨course.courseName, course.maxCapacity,
        course.prerequisites, insert student.studentId course.enrolledStudents,
        course.registrationDeadline⟩
      let reg' : CourseRegistration :=
        ⟨Function.update reg.courses courseCode (some course')⟩
      match student.enrollInCourse maxCourseLimit courseCode with
      | .error e => .thrown e (reg', student)
      | .ok p => .ok .SUCCESS (reg', p.2)

/-- `CourseRegistration::withdrawStudent`, `src/course_registration.cpp`
lines 222-230: `erase` returns the number of removed elements, so the
returned boolean is exactly prior membership. -/
def CourseRegistration.withdrawStudent (reg : CourseRegistration)
    (studentId courseCode : String) : Bool × CourseRegistration :=
  match reg.courses courseCode with
  | none => (false, reg)
  | some course =>
    (decide (studentId ∈ course.enrolledStudents),
     ⟨Function.update reg.courses courseCode
       (some ⟨course.courseName, course.maxCapacity, course.prerequisites,
         course.enrolledStudents.erase studentId, course.registrationDeadline⟩)⟩)

/-- `CourseRegistration::getEnrollmentCount`, `src/course_registration.cpp`
lines 232-238 (const method: no state change, so a plain `Except`). -/
def CourseRegistration.getEnrollmentCount (reg : CourseRegistration)
    (courseCode : String) : Except CRError Nat :=
  match reg.courses courseCode with
  | none => .error .outOfRange
  | some course => .ok course.enrolledStudents.card

/-- `CourseRegistration::isCourseFull`, `src/course_registration.cpp`
lines 240-246. -/
def CourseRegistration.isCourseFull (reg : CourseRegistration)
    (courseCode : String) : Except CRError Bool :=
  match reg.courses courseCode with
  | none => .error .outOfRange
  | some course => .ok (sizeGeCap course.enrolledStudents.card course.maxCapacity)

/-- The status returned by a `registerStudent` call, `none` when the call
threw instead of returning. -/
def returnedStatus {σ : Type} : CppResult σ RegistrationStatus → Option RegistrationStatus
  | .ok st _ => some st
  | .thrown _ _ => none

/-- Ledger states constructible through the public `CourseRegistration`
operations starting from an empty catalog; the state after a throwing call
is included (the caller keeps the object). -/
inductive Reachable : CourseRegistration → Prop where
  | empty : Reachable ⟨fun _ => none⟩
  | step_addCourse : ∀ (reg : CourseRegistration) (cc cn : String) (cap : Int)
      (pre : Finset String) (dl : Int), Reachable reg →
      Reachable (reg.addCourse cc cn cap pre dl).state
  | step_register : ∀ (reg : CourseRegistration) (lim : Nat) (now : Int)
      (s : Student) (cc : String), Reachable reg →
      Reachable ((reg.registerStudent lim now s cc).state).1
  | step_withdraw : ∀ (reg : CourseRegistration) (sid cc : String), Reachable reg →
      Reachable (reg.withdrawStudent sid cc).2

/-- The registration decision sequence exactly as §4.2 of the spec words
it: deadline, already-enrolled, capacity (as `|enrolledStudents| ≥
maxCapacity` over `Int`), prerequisites, success. Compared against
`registerStudent` for the refinement claim. -/
def specRegStatus (now : Int) (reg : CourseRegistration) (student : Student)
    (courseCode : String) (course : CourseInfo) : RegistrationStatus :=
  if now > course.registrationDeadline then .REGISTRATION_CLOSED
  else if student.studentId ∈ course.enrolledStudents then .ALREADY_ENROLLED
  else if course.maxCapacity ≤ (course.enrolledStudents.card : Int) then .COURSE_FULL
  else if reg.validatePrerequisites student courseCode = false then .PREREQ_NOT_MET
  else .SUCCESS

/-- The error a call threw, `none` when it returned normally. -/
def CppResult.throws {σ α : Type} : CppResult σ α → Option CRError
  | .ok _ _ => none
  | .thrown e _ => some e

/-- Concrete catalog states used to instantiate the theorems. -/
def emptyReg : CourseRegistration := ⟨fun _ => none⟩

def sampleReg : CourseRegistration :=
  (emptyReg.addCourse "CS201" "Data Structures" 2 {"CS101"} 1000).state

def sampleStudent : Student := ⟨"S1", "Alice", "CSE", 0, 1, ["CS101"]⟩

def sampleReg2 : CourseRegistration :=
  ⟨fun c => if c = "CS201" then
      some ⟨"Data Structures", 2, {"CS101"}, {"S1"}, 1000⟩
    else none⟩

theorem sizeGeCap_eq (size : Nat) (cap : Int) (h0 : 0 ≤ cap) (h1 : cap < (2 : Int) ^ 64) :
    sizeGeCap size cap = decide (cap ≤ (size : Int)) := by
  have hp : (2 : Int) ^ 64 = 18446744073709551616 := by norm_num
  rw [hp] at h1
  simp only [sizeGeCap, hp, decide_eq_decide]
  omega

theorem sizeGeCap_false_bound (size : Nat) (cap : Int) (h0 : 0 ≤ cap)
    (h : sizeGeCap size cap = false) : (size : Int) + 1 ≤ cap := by
  have hp : (2 : Int) ^ 64 = 18446744073709551616 := by norm_num
  simp only [sizeGeCap, hp, decide_eq_false_iff_not, not_le] at h
  omega

theorem registerStudent_eval_none (reg : CourseRegistration) (lim : Nat) (now : Int)
    (s : Student) (cc : String) (hc : reg.courses cc = none) :
    reg.registerStudent lim now s cc = .thrown .invalidArgument (reg, s) := by
  unfold CourseRegistration.registerStudent
  rw [hc]

theorem registerStudent_eval_closed (reg : CourseRegistration) (lim : Nat) (now : Int)
    (s : Student) (cc : String) (course : CourseInfo)
    (hc : reg.courses cc = some course) (h1 : now > course.registrationDeadline) :
    reg.registerStudent lim now s cc = .ok .REGISTRATION_CLOSED (reg, s) := by
  unfold CourseRegistration.registerStudent
  rw [hc]
  simp [if_pos h1]

theorem registerStudent_eval_already (reg : CourseRegistration) (lim : Nat) (now : Int)
    (s : Student) (cc : String) (course : CourseInfo)
    (hc : reg.courses cc = some course) (h1 : ¬ now > course.registrationDeadline)
    (h2 : s.studentId ∈ course.enrolledStudents) :
    reg.registerStudent lim now s cc = .ok .ALREADY_ENROLLED (reg, s) := by
  unfold CourseRegistration.registerStudent
  rw [hc]
  simp [if_neg h1, if_pos h2]

theorem registerStudent_eval_full (reg : CourseRegistration) (lim : Nat) (now : Int)
    (s : Student) (cc : String) (course : CourseInfo)
    (hc : reg.courses cc = some course) (h1 : ¬ now > course.registrationDeadline)
    (h2 : s.studentId ∉ course.enrolledStudents)
    (h3 : sizeGeCap course.enrolledStudents.card course.maxCapacity = true) :
    reg.registerStudent lim now s cc = .ok .COURSE_FULL (reg, s) := by
  unfold CourseRegistration.registerStudent
  rw [hc]
  simp [if_neg h1, if_neg h2, h3]

theorem registerStudent_eval_prereq (reg : CourseRegistration) (lim : Nat) (now : Int)
    (s : Student) (cc : String) (course : CourseInfo)
    (hc : reg.courses cc = some course) (h1 : ¬ now > course.registrationDeadline)
    (h2 : s.studentId ∉ course.enrolledStudents)
    (h3 : sizeGeCap course.enrolledStudents.card course.maxCapacity = false)
    (h4 : reg.validatePrerequisites s cc = false) :
    reg.registerStudent lim now s cc = .ok .PREREQ_NOT_MET (reg, s) := by
  unfold CourseRegistration.registerStudent
  rw [hc]
  simp [if_neg h1, if_neg h2, h3, h4]

theorem registerStudent_eval_success (reg : CourseRegistration) (lim : Nat) (now : Int)
    (s : Student) (cc : String) (course : CourseInfo) (p : Bool × Student)
    (hc : reg.courses cc = some course) (h1 : ¬ now > course.registrationDeadline)
    (h2 : s.studentId ∉ course.enrolledStudents)
    (h3 : sizeGeCap course.enrolledStudents.card course.maxCapacity = false)
    (h4 : reg.validatePrerequisites s cc = true)
    (he : s.enrollInCourse lim cc = .ok p) :
    reg.registerStudent lim now s cc = .ok .SUCCESS
      (⟨Function.update reg.courses cc (some ⟨course.courseName, course.maxCapacity,
        course.prerequisites, insert s.studentId course.enrolledStudents,
        course.registrationDeadline⟩)⟩, p.2) := by
  unfold CourseRegistration.registerStudent
  rw [hc]
  simp [if_neg h1, if_neg h2, h3, h4, he]

theorem registerStudent_eval_throw (reg : CourseRegistration) (lim : Nat) (now : Int)
    (s : Student) (cc : String) (course : CourseInfo) (e : CRError)
    (hc : reg.courses cc = some course) (h1 : ¬ now > course.registrationDeadline)
    (h2 : s.studentId ∉ course.enrolledStudents)
    (h3 : sizeGeCap course.enrolledStudents.card course.maxCapacity = false)
    (h4 : reg.validatePrerequisites s cc = true)
    (he : s.enrollInCourse lim cc = .error e) :
    reg.registerStudent lim now s cc = .thrown e
      (⟨Function.update reg.courses cc (some ⟨course.courseName, course.maxCapacity,
        course.prerequisites, insert s.studentId course.enrolledStudents,
        course.registrationDeadline⟩)⟩, s) := by
  unfold CourseRegistration.registerStudent
  rw [hc]
  simp [if_neg h1, if_neg h2, h3, h4, he]

theorem withdrawStudent_eval_none (reg : CourseRegistration) (sid cc : String)
    (hc : reg.courses cc = none) : reg.withdrawStudent sid cc = (false, reg) := by
  unfold CourseRegistration.withdrawStudent
  rw [hc]

theorem withdrawStudent_eval_some (reg : CourseRegistration) (sid cc : String)
    (course : CourseInfo) (hc : reg.courses cc = some course) :
    reg.withdrawStudent sid cc = (decide (sid ∈ course.enrolledStudents),
      ⟨Function.update reg.courses cc (some ⟨course.courseName, course.maxCapacity,
        course.prerequisites, course.enrolledStudents.erase sid,
        course.registrationDeadline⟩)⟩) := by
  unfold CourseRegistration.withdrawStudent
  rw [hc]

/-- C1: `registerStudent` throws InvalidArgument on an unknown course code;
otherwise it returns exactly the first matching status of the spec's
decision sequence deadline → already-enrolled → capacity → prerequisites →
success (`specRegStatus`). The capacity bounds hold for every catalog the
operations can build (`addCourse` rejects negative `int` capacities), and
the last hypothesis says the student-side `enrollInCourse` call does not
hit its RuntimeError course-limit (that limit is unspecified in the
sources, see `Student.enrollInCourse`). -/
theorem registerStudent_matches_spec (reg : CourseRegistration) (lim : Nat) (now : Int)
    (s : Student) (cc : String) :
    (reg.courses cc = none →
      reg.registerStudent lim now s cc = .thrown .invalidArgument (reg, s)) ∧
    (∀ course, reg.courses cc = some course → 0 ≤ course.maxCapacity →
      course.maxCapacity < (2 : Int) ^ 64 →
      (cc ∈ s.enrolledCourses ∨ s.enrolledCourses.length < lim) →
      returnedStatus (reg.registerStudent lim now s cc) =
        some (specRegStatus now reg s cc course)) := by
  constructor
  · intro h
    exact registerStudent_eval_none reg lim now s cc h
  · intro course hc hcap0 hcap1 hlim
    have hcapiff : (sizeGeCap course.enrolledStudents.card course.maxCapacity = true) ↔
        (course.maxCapacity ≤ (course.enrolledStudents.card : Int)) := by
      rw [sizeGeCap_eq _ _ hcap0 hcap1]
      simp
    by_cases h1 : now > course.registrationDeadline
    · rw [registerStudent_eval_closed reg lim now s cc course hc h1]
      simp [returnedStatus, specRegStatus, if_pos h1]
    by_cases h2 : s.studentId ∈ course.enrolledStudents
    · rw [registerStudent_eval_already reg lim now s cc course hc h1 h2]
      simp [returnedStatus, specRegStatus, if_neg h1, if_pos h2]
    by_cases h3 : course.maxCapacity ≤ (course.enrolledStudents.card : Int)
    · rw [registerStudent_eval_full reg lim now s cc course hc h1 h2 (hcapiff.mpr h3)]
      simp [returnedStatus, specRegStatus, if_neg h1, if_neg h2, if_pos h3]
    have h3' : sizeGeCap course.enrolledStudents.card course.maxCapacity = false := by
      rw [← Bool.not_eq_true]
      intro hh
      exact h3 (hcapiff.mp hh)
    by_cases h4 : reg.validatePrerequisites s cc = false
    · rw [registerStudent_eval_prereq reg lim now s cc course hc h1 h2 h3' h4]
      simp [returnedStatus, specRegStatus, if_neg h1, if_neg h2, if_neg h3, if_pos h4]
    have h4' : reg.validatePrerequisites s cc = true := by
      rw [← Bool.not_eq_false]
      exact h4
    have he : ∃ p, s.enrollInCourse lim cc = .ok p := by
      unfold Student.enrollInCourse
      by_cases hm : cc ∈ s.enrolledCourses
      · exact ⟨(false, s), by rw [if_pos hm]⟩
      · rcases hlim with hml | hll
        · exact absurd hml hm
        · exact ⟨_, by rw [if_neg hm, if_neg (by omega)]⟩
    rcases he with ⟨p, hp⟩
    rw [registerStudent_eval_success reg lim now s cc course p hc h1 h2 h3' h4' hp]
    simp [returnedStatus, specRegStatus, if_neg h1, if_neg h2, if_neg h3, if_neg h4]

theorem registerStudent_matches_spec_witness :
    emptyReg.registerStudent 6 0 sampleStudent "CS201" =
      .thrown .invalidArgument (emptyReg, sampleStudent) ∧
    returnedStatus (sampleReg.registerStudent 6 50 sampleStudent "CS201") =
      some (specRegStatus 50 sampleReg sampleStudent "CS201"
        ⟨"Data Structures", 2, {"CS101"}, ∅, 1000⟩) :=
  ⟨(registerStudent_matches_spec emptyReg 6 0 sampleStudent "CS201").1 rfl,
   (registerStudent_matches_spec sampleReg 6 50 sampleStudent "CS201").2
     ⟨"Data Structures", 2, {"CS101"}, ∅, 1000⟩ (by decide) (by decide) (by decide)
     (Or.inr (by decide))⟩

/-- C4: `validatePrerequisites(student, courseCode)` returns true iff
`courseCode` is in the catalog and every prerequisite of that course appears
in the student's `enrolledCourses` list (current enrollment, not
completion); for every unknown `courseCode` it returns false. -/
theorem validatePrerequisites_iff (reg : CourseRegistration) (s : Student) (cc : String) :
    (reg.validatePrerequisites s cc = true ↔
      ∃ course, reg.courses cc = some course ∧
        ∀ p ∈ course.prerequisites, p ∈ s.enrolledCourses) ∧
    (reg.courses cc = none → reg.validatePrerequisites s cc = false) := by
  unfold CourseRegistration.validatePrerequisites
  cases hc : reg.courses cc with
  | none => simp
  | some course =>
    simp only [hc, decide_eq_true_eq, Option.some.injEq, reduceCtorEq,
      false_implies, and_true]
    constructor
    · intro h
      exact ⟨course, rfl, h⟩
    · rintro ⟨course', hcc, h⟩
      cases hcc
      exact h

theorem validatePrerequisites_iff_witness :
    sampleReg.validatePrerequisites sampleStudent "CS201" = true :=
  (validatePrerequisites_iff sampleReg sampleStudent "CS201").1.mpr
    ⟨⟨"Data Structures", 2, {"CS101"}, ∅, 1000⟩, by decide, by decide⟩

/-- C6: `getAcademicStanding` is a pure function of `cgpa`: EXCELLENT for
cgpa ≥ 9.0, GOOD for 7.0 ≤ cgpa < 9.0, SATISFACTORY for 5.0 ≤ cgpa < 7.0,
PROBATION for cgpa < 5.0, each boundary in the higher tier, and the result
depends on nothing but `cgpa`. -/
theorem getAcademicStanding_tiers (s : Student) :
    (9 ≤ s.cgpa → s.getAcademicStanding = .EXCELLENT) ∧
    (7 ≤ s.cgpa → s.cgpa < 9 → s.getAcademicStanding = .GOOD) ∧
    (5 ≤ s.cgpa → s.cgpa < 7 → s.getAcademicStanding = .SATISFACTORY) ∧
    (s.cgpa < 5 → s.getAcademicStanding = .PROBATION) ∧
    (∀ t : Student, s.cgpa = t.cgpa → s.getAcademicStanding = t.getAcademicStanding) := by
  refine ⟨?_, ?_, ?_, ?_, ?_⟩
  · intro h; unfold Student.getAcademicStanding; split_ifs <;> first | rfl | linarith
  · intro h h'; unfold Student.getAcademicStanding; split_ifs <;> first | rfl | linarith
  · intro h h'; unfold Student.getAcademicStanding; split_ifs <;> first | rfl | linarith
  · intro h; unfold Student.getAcademicStanding; split_ifs <;> first | rfl | linarith
  · intro t h; unfold Student.getAcademicStanding; rw [h]

theorem getAcademicStanding_tiers_witness :
    (⟨"S2", "Bob", "EE", 9, 3, []⟩ : Student).getAcademicStanding = .EXCELLENT :=
  (getAcademicStanding_tiers ⟨"S2", "Bob", "EE", 9, 3, []⟩).1 (by norm_num)

/-- C7: `addCourse` throws InvalidArgument on a duplicate course code,
throws OutOfRange on a negative capacity (both leaving the catalog as it
was), and otherwise returns normally, inserting a `CourseInfo` with an
empty `enrolledStudents` set under `courseCode` and leaving every other
catalog entry unchanged. -/
theorem addCourse_spec (reg : CourseRegistration) (cc cn : String) (cap : Int)
    (pre : Finset String) (dl : Int) :
    ((reg.courses cc).isSome = true →
      reg.addCourse cc cn cap pre dl = .thrown .invalidArgument reg) ∧
    (reg.courses cc = none → cap < 0 →
      reg.addCourse cc cn cap pre dl = .thrown .outOfRange reg) ∧
    (reg.courses cc = none → 0 ≤ cap →
      (reg.addCourse cc cn cap pre dl).throws = none ∧
      (reg.addCourse cc cn cap pre dl).state.courses cc = some ⟨cn, cap, pre, ∅, dl⟩ ∧
      ∀ c, c ≠ cc → (reg.addCourse cc cn cap pre dl).state.courses c = reg.courses c) := by
  refine ⟨?_, ?_, ?_⟩
  · intro h
    unfold CourseRegistration.addCourse
    rw [if_pos h]
  · intro h hcap
    unfold CourseRegistration.addCourse
    rw [if_neg (by simp [h]), if_pos hcap]
  · intro h hcap
    unfold CourseRegistration.addCourse
    rw [if_neg (by simp [h]), if_neg (not_lt.mpr hcap)]
    refine ⟨rfl, ?_, ?_⟩
    · simp [CppResult.state, Function.update_same]
    · intro c hc
      simp [CppResult.state, Function.update_noteq hc]

theorem addCourse_spec_witness :
    sampleReg2.addCourse "CS201" "Clone" 5 ∅ 0 = .thrown .invalidArgument sampleReg2 ∧
    emptyReg.addCourse "CS101" "Intro" (-1) ∅ 0 = .thrown .outOfRange emptyReg ∧
    (emptyReg.addCourse "CS101" "Intro" 30 ∅ 100).state.courses "CS101" =
      some ⟨"Intro", 30, ∅, ∅, 100⟩ :=
  ⟨(addCourse_spec sampleReg2 "CS201" "Clone" 5 ∅ 0).1 (by decide),
   (addCourse_spec emptyReg "CS101" "Intro" (-1) ∅ 0).2.1 rfl (by decide),
   ((addCourse_spec emptyReg "CS101" "Intro" 30 ∅ 100).2.2 rfl (by decide)).2.1⟩

/-- C10: when the course code is already present and the capacity is also
negative, the duplicate check fires first: `addCourse` throws
InvalidArgument, not OutOfRange, and the catalog is unchanged. -/
theorem addCourse_duplicate_before_capacity (reg : CourseRegistration) (cc cn : String)
    (cap : Int) (pre : Finset String) (dl : Int)
    (h : (reg.courses cc).isSome = true) (hcap : cap < 0) :
    reg.addCourse cc cn cap pre dl = .thrown .invalidArgument reg := by
  unfold CourseRegistration.addCourse
  rw [if_pos h]

theorem addCourse_duplicate_before_capacity_witness :
    sampleReg2.addCourse "CS201" "Clone" (-1) ∅ 0 = .thrown .invalidArgument sampleReg2 :=
  addCourse_duplicate_before_capacity sampleReg2 "CS201" "Clone" (-1) ∅ 0
    (by decide) (by decide)

/-- C2: `registerStudent` mutates nothing when it returns
REGISTRATION_CLOSED, ALREADY_ENROLLED, COURSE_FULL or PREREQ_NOT_MET (the
resulting ledger/student pair is the input pair), and on SUCCESS it inserts
the student's ID into the course's `enrolledStudents` (all other catalog
entries unchanged) and the resulting student is exactly the output of the
student's `enrollInCourse(courseCode)` call. -/
theorem registerStudent_pure_unless_success (reg : CourseRegistration) (lim : Nat)
    (now : Int) (s : Student) (cc : String) (st : RegistrationStatus)
    (h : returnedStatus (reg.registerStudent lim now s cc) = some st) :
    (st = .REGISTRATION_CLOSED ∨ st = .ALREADY_ENROLLED ∨ st = .COURSE_FULL ∨
        st = .PREREQ_NOT_MET →
      (reg.registerStudent lim now s cc).state = (reg, s)) ∧
    (st = .SUCCESS → ∀ course, reg.courses cc = some course →
      (reg.registerStudent lim now s cc).state.1.courses cc =
        some ⟨course.courseName, course.maxCapacity, course.prerequisites,
          insert s.studentId course.enrolledStudents, course.registrationDeadline⟩ ∧
      (∀ c, c ≠ cc →
        (reg.registerStudent lim now s cc).state.1.courses c = reg.courses c) ∧
      Except.map Prod.snd (s.enrollInCourse lim cc) =
        Except.ok (reg.registerStudent lim now s cc).state.2) := by
  cases hc : reg.courses cc with
  | none =>
    rw [registerStudent_eval_none reg lim now s cc hc] at h
    simp [returnedStatus] at h
  | some course =>
    by_cases h1 : now > course.registrationDeadline
    · have heval := registerStudent_eval_closed reg lim now s cc course hc h1
      rw [heval] at h
      simp only [returnedStatus, Option.some.injEq] at h
      subst h
      refine ⟨fun _ => by rw [heval]; rfl, fun hS => by simp at hS⟩
    by_cases h2 : s.studentId ∈ course.enrolledStudents
    · have heval := registerStudent_eval_already reg lim now s cc course hc h1 h2
      rw [heval] at h
      simp only [returnedStatus, Option.some.injEq] at h
      subst h
      refine ⟨fun _ => by rw [heval]; rfl, fun hS => by simp at hS⟩
    by_cases h3 : sizeGeCap course.enrolledStudents.card course.maxCapacity = true
    · have heval := registerStudent_eval_full reg lim now s cc course hc h1 h2 h3
      rw [heval] at h
      simp only [returnedStatus, Option.some.injEq] at h
      subst h
      refine ⟨fun _ => by rw [heval]; rfl, fun hS => by simp at hS⟩
    have h3' : sizeGeCap course.enrolledStudents.card course.maxCapacity = false := by
      rw [← Bool.not_eq_true]
      exact h3
    by_cases h4 : reg.validatePrerequisites s cc = false
    · have heval := registerStudent_eval_prereq reg lim now s cc course hc h1 h2 h3' h4
      rw [heval] at h
      simp only [returnedStatus, Option.some.injEq] at h
      subst h
      refine ⟨fun _ => by rw [heval]; rfl, fun hS => by simp at hS⟩
    have h4' : reg.validatePrerequisites s cc = true := by
      rw [← Bool.not_eq_false]
      exact h4
    cases he : s.enrollInCourse lim cc with
    | error e =>
      rw [registerStudent_eval_throw reg lim now s cc course e hc h1 h2 h3' h4' he] at h
      simp [returnedStatus] at h
    | ok p =>
      have heval := registerStudent_eval_success reg lim now s cc course p hc h1 h2 h3' h4' he
      rw [heval] at h
      simp only [returnedStatus, Option.some.injEq] at h
      subst h
      constructor
      · rintro (hX | hX | hX | hX) <;> simp at hX
      · intro _ course2 hc2
        cases hc2
        refine ⟨?_, ?_, ?_⟩
        · rw [heval]
          simp [CppResult.state, Function.update_same]
        · intro c hcne
          rw [heval]
          simp only [CppResult.state]
          exact Function.update_noteq hcne _ _
        · rw [heval]
          simp [CppResult.state, Except.map]

theorem registerStudent_pure_unless_success_witness :
    (sampleReg2.registerStudent 6 50 sampleStudent "CS201").state =
      (sampleReg2, sampleStudent) ∧
    (sampleReg.registerStudent 6 50 sampleStudent "CS201").state.1.courses "CS201" =
      some ⟨"Data Structures", 2, {"CS101"},
        insert sampleStudent.studentId (∅ : Finset String), 1000⟩ :=
  ⟨(registerStudent_pure_unless_success sampleReg2 6 50 sampleStudent "CS201"
      .ALREADY_ENROLLED (by decide)).1 (Or.inr (Or.inl rfl)),
   ((registerStudent_pure_unless_success sampleReg 6 50 sampleStudent "CS201"
      .SUCCESS (by decide)).2 rfl
      ⟨"Data Structures", 2, {"CS101"}, ∅, 1000⟩ (by decide)).1⟩

/-- C9: when every course-side check passes but the course code is already
in the student's own `enrolledCourses` list (as after a prior
`withdrawStudent`), `enrollInCourse` returns `false`, yet `registerStudent`
still inserts the ID into the course's `enrolledStudents` and returns
SUCCESS: the boolean is discarded and the student is left unchanged. -/
theorem registerStudent_ignores_enroll_bool (reg : CourseRegistration) (lim : Nat)
    (now : Int) (s : Student) (cc : String) (course : CourseInfo)
    (hc : reg.courses cc = some course)
    (h1 : ¬ now > course.registrationDeadline)
    (h2 : s.studentId ∉ course.enrolledStudents)
    (h3 : sizeGeCap course.enrolledStudents.card course.maxCapacity = false)
    (h4 : reg.validatePrerequisites s cc = true)
    (hmem : cc ∈ s.enrolledCourses) :
    s.enrollInCourse lim cc = .ok (false, s) ∧
    reg.registerStudent lim now s cc = .ok .SUCCESS
      (⟨Function.update reg.courses cc (some ⟨course.courseName, course.maxCapacity,
        course.prerequisites, insert s.studentId course.enrolledStudents,
        course.registrationDeadline⟩)⟩, s) := by
  have he : s.enrollInCourse lim cc = .ok (false, s) := by
    unfold Student.enrollInCourse
    rw [if_pos hmem]
  exact ⟨he, registerStudent_eval_success reg lim now s cc course (false, s)
    hc h1 h2 h3 h4 he⟩

theorem registerStudent_ignores_enroll_bool_witness :
    (⟨"S2", "Bo", "CSE", 0, 1, ["CS101", "CS201"]⟩ : Student).enrollInCourse 6 "CS201" =
      .ok (false, ⟨"S2", "Bo", "CSE", 0, 1, ["CS101", "CS201"]⟩) ∧
    sampleReg2.registerStudent 6 50 ⟨"S2", "Bo", "CSE", 0, 1, ["CS101", "CS201"]⟩
        "CS201" = .ok .SUCCESS
      (⟨Function.update sampleReg2.courses "CS201"
        (some ⟨"Data Structures", 2, {"CS101"}, insert "S2" ({"S1"} : Finset String),
          1000⟩)⟩, ⟨"S2", "Bo", "CSE", 0, 1, ["CS101", "CS201"]⟩) :=
  registerStudent_ignores_enroll_bool sampleReg2 6 50
    ⟨"S2", "Bo", "CSE", 0, 1, ["CS101", "CS201"]⟩ "CS201"
    ⟨"Data Structures", 2, {"CS101"}, {"S1"}, 1000⟩
    (by decide) (by decide) (by decide) (by decide) (by decide) (by decide)

/-- C8: `registerStudent` never returns TIME_CONFLICT: every call either
throws (status `none`) or returns one of SUCCESS, COURSE_FULL,
PREREQ_NOT_MET, ALREADY_ENROLLED, REGISTRATION_CLOSED. -/
theorem registerStudent_never_time_conflict (reg : CourseRegistration) (lim : Nat)
    (now : Int) (s : Student) (cc : String) :
    returnedStatus (reg.registerStudent lim now s cc) ∈
      ([none, some .SUCCESS, some .COURSE_FULL, some .PREREQ_NOT_MET,
        some .ALREADY_ENROLLED, some .REGISTRATION_CLOSED] :
        List (Option RegistrationStatus)) := by
  unfold CourseRegistration.registerStudent
  cases hc : reg.courses cc with
  | none => simp [returnedStatus]
  | some course =>
    by_cases h1 : now > course.registrationDeadline
    · simp [if_pos h1, returnedStatus]
    by_cases h2 : s.studentId ∈ course.enrolledStudents
    · simp [if_neg h1, if_pos h2, returnedStatus]
    by_cases h3 : sizeGeCap course.enrolledStudents.card course.maxCapacity = true
    · simp [if_neg h1, if_neg h2, if_pos h3, returnedStatus]
    by_cases h4 : reg.validatePrerequisites s cc = false
    · simp [if_neg h1, if_neg h2, if_neg h3, if_pos h4, returnedStatus]
    cases he : s.enrollInCourse lim cc <;>
      simp [if_neg h1, if_neg h2, if_neg h3, if_neg h4, he, returnedStatus]

/-- C5: `withdrawStudent` returns false on an unknown course code (no
state change); on a known course it returns true exactly when the student
ID was enrolled, replaces the course's `enrolledStudents` by its `erase`,
leaves every other catalog entry unchanged, and when the student was
enrolled the enrollment count drops by exactly one. It takes only the ID
string and returns only the ledger, so no `Student` object is touched. -/
theorem withdrawStudent_spec (reg : CourseRegistration) (sid cc : String) :
    (reg.courses cc = none → reg.withdrawStudent sid cc = (false, reg)) ∧
    (∀ course, reg.courses cc = some course →
      ((reg.withdrawStudent sid cc).1 = true ↔ sid ∈ course.enrolledStudents) ∧
      (reg.withdrawStudent sid cc).2.courses cc =
        some ⟨course.courseName, course.maxCapacity, course.prerequisites,
          course.enrolledStudents.erase sid, course.registrationDeadline⟩ ∧
      (∀ c, c ≠ cc → (reg.withdrawStudent sid cc).2.courses c = reg.courses c) ∧
      (sid ∈ course.enrolledStudents →
        reg.getEnrollmentCount cc = .ok course.enrolledStudents.card ∧
        (reg.withdrawStudent sid cc).2.getEnrollmentCount cc =
          .ok (course.enrolledStudents.card - 1) ∧
        1 ≤ course.enrolledStudents.card)) := by
  constructor
  · intro h
    exact withdrawStudent_eval_none reg sid cc h
  · intro course hc
    have heval := withdrawStudent_eval_some reg sid cc course hc
    refine ⟨?_, ?_, ?_, ?_⟩
    · rw [heval]
      simp
    · rw [heval]
      simp [Function.update_same]
    · intro c hcne
      rw [heval]
      exact Function.update_noteq hcne _ _
    · intro hmem
      refine ⟨?_, ?_, Finset.card_pos.mpr ⟨sid, hmem⟩⟩
      · unfold CourseRegistration.getEnrollmentCount
        rw [hc]
      · unfold CourseRegistration.getEnrollmentCount
        rw [heval]
        simp [Function.update_same, Finset.card_erase_of_mem hmem]

theorem withdrawStudent_spec_witness :
    ((sampleReg2.withdrawStudent "S1" "CS201").1 = true ↔
      "S1" ∈ ({"S1"} : Finset String)) ∧
    sampleReg2.getEnrollmentCount "CS201" = .ok ({"S1"} : Finset String).card ∧
    (sampleReg2.withdrawStudent "S1" "CS201").2.getEnrollmentCount "CS201" =
      .ok (({"S1"} : Finset String).card - 1) ∧
    emptyReg.withdrawStudent "S1" "NOPE" = (false, emptyReg) := by
  have h := (withdrawStudent_spec sampleReg2 "S1" "CS201").2
    ⟨"Data Structures", 2, {"CS101"}, {"S1"}, 1000⟩ (by decide)
  have hcount := h.2.2.2 (by decide)
  exact ⟨h.1, hcount.1, hcount.2.1,
    (withdrawStudent_spec emptyReg "S1" "NOPE").1 rfl⟩

theorem reachable_all_caps_inv (reg : CourseRegistration) (h : Reachable reg) :
    ∀ cc course, reg.courses cc = some course →
      0 ≤ course.maxCapacity ∧
      (course.enrolledStudents.card : Int) ≤ course.maxCapacity := by
  induction h with
  | empty =>
    intro cc course hc
    exact absurd hc (by simp [emptyReg])
  | step_addCourse reg0 cc0 cn cap pre dl h0 ih =>
    intro cc course hc
    unfold CourseRegistration.addCourse at hc
    split_ifs at hc with hdup hneg
    · exact ih cc course hc
    · exact ih cc course hc
    · simp only [CppResult.state] at hc
      by_cases hcc : cc = cc0
      · subst hcc
        rw [Function.update_same] at hc
        cases hc
        have hcap : (0 : Int) ≤ cap := by omega
        exact ⟨hcap, by simpa using hcap⟩
      · rw [Function.update_noteq hcc] at hc
        exact ih cc course hc
  | step_register reg0 lim now s cc0 h0 ih =>
    intro cc course hc
    cases hcs : reg0.courses cc0 with
    | none =>
      rw [registerStudent_eval_none reg0 lim now s cc0 hcs] at hc
      exact ih cc course hc
    | some course0 =>
      by_cases h1 : now > course0.registrationDeadline
      · rw [registerStudent_eval_closed reg0 lim now s cc0 course0 hcs h1] at hc
        exact ih cc course hc
      by_cases h2 : s.studentId ∈ course0.enrolledStudents
      · rw [registerStudent_eval_already reg0 lim now s cc0 course0 hcs h1 h2] at hc
        exact ih cc course hc
      by_cases h3 : sizeGeCap course0.enrolledStudents.card course0.maxCapacity = true
      · rw [registerStudent_eval_full reg0 lim now s cc0 course0 hcs h1 h2 h3] at hc
        exact ih cc course hc
      have h3' : sizeGeCap course0.enrolledStudents.card course0.maxCapacity = false := by
        rw [← Bool.not_eq_true]
        exact h3
      by_cases h4 : reg0.validatePrerequisites s cc0 = false
      · rw [registerStudent_eval_prereq reg0 lim now s cc0 course0 hcs h1 h2 h3' h4] at hc
        exact ih cc course hc
      have h4' : reg0.validatePrerequisites s cc0 = true := by
        rw [← Bool.not_eq_false]
        exact h4
      have hkey : ∀ course1,
          Function.update reg0.courses cc0 (some ⟨course0.courseName,
            course0.maxCapacity, course0.prerequisites,
            insert s.studentId course0.enrolledStudents,
            course0.registrationDeadline⟩) cc = some course1 →
          0 ≤ course1.maxCapacity ∧
          (course1.enrolledStudents.card : Int) ≤ course1.maxCapacity := by
        intro course1 hc1
        by_cases hcc : cc = cc0
        · subst hcc
          rw [Function.update_same] at hc1
          cases hc1
          obtain ⟨hcap0, hcard⟩ := ih cc course0 hcs
          have hb := sizeGeCap_false_bound course0.enrolledStudents.card
            course0.maxCapacity hcap0 h3'
          have hins := Finset.card_insert_le s.studentId course0.enrolledStudents
          exact ⟨hcap0, by push_cast; omega⟩
        · rw [Function.update_noteq hcc] at hc1
          exact ih cc course1 hc1
      cases he : s.enrollInCourse lim cc0 with
      | error e =>
        rw [registerStudent_eval_throw reg0 lim now s cc0 course0 e hcs h1 h2 h3' h4' he] at hc
        exact hkey course hc
      | ok p =>
        rw [registerStudent_eval_success reg0 lim now s cc0 course0 p hcs h1 h2 h3' h4' he] at hc
        exact hkey course hc
  | step_withdraw reg0 sid cc0 h0 ih =>
    intro cc course hc
    cases hcs : reg0.courses cc0 with
    | none =>
      rw [withdrawStudent_eval_none reg0 sid cc0 hcs] at hc
      exact ih cc course hc
    | some course0 =>
      rw [withdrawStudent_eval_some reg0 sid cc0 course0 hcs] at hc
      have hc2 : Function.update reg0.courses cc0 (some ⟨course0.courseName,
          course0.maxCapacity, course0.prerequisites,
          course0.enrolledStudents.erase sid, course0.registrationDeadline⟩) cc =
          some course := hc
      by_cases hcc : cc = cc0
      · subst hcc
        rw [Function.update_same] at hc2
        cases hc2
        obtain ⟨hcap0, hcard⟩ := ih cc course0 hcs
        have her : (course0.enrolledStudents.erase sid).card ≤
            course0.enrolledStudents.card := Finset.card_erase_le
        exact ⟨hcap0, by push_cast; omega⟩
      · rw [Function.update_noteq hcc] at hc2
        exact ih cc course hc2

/-- C3: on every catalog state reachable from the empty catalog through
the `CourseRegistration` operations, every course satisfies
`|enrolledStudents| ≤ maxCapacity`: `addCourse` starts the set empty with
a non-negative capacity, `registerStudent` checks capacity before
inserting, and `withdrawStudent` only removes. -/
theorem enrolledStudents_card_le_maxCapacity (reg : CourseRegistration)
    (h : Reachable reg) (cc : String) (course : CourseInfo)
    (hc : reg.courses cc = some course) :
    (course.enrolledStudents.card : Int) ≤ course.maxCapacity :=
  (reachable_all_caps_inv reg h cc course hc).2

theorem enrolledStudents_card_le_maxCapacity_witness :
    (((⟨"Data Structures", 2, {"CS101"}, ∅, 1000⟩ : CourseInfo).enrolledStudents.card :
      Int) ≤ (⟨"Data Structures", 2, {"CS101"}, ∅, 1000⟩ : CourseInfo).maxCapacity) :=
  enrolledStudents_card_le_maxCapacity sampleReg
    (Reachable.step_addCourse emptyReg "CS201" "Data Structures" 2 {"CS101"} 1000
      Reachable.empty)
    "CS201" ⟨"Data Structures", 2, {"CS101"}, ∅, 1000⟩ (by decide)

end CourseReg
